import Mathlib

/-!
Shallow embedding of the deployment-orchestration scripts
(`scripts/deploy.py`, `scripts/rollback.py`, `scripts/health_check.py`).

Modelling conventions:
* External AWS calls are modelled by their observable inputs/outputs: the
  sequence of poll responses a run observes is an explicit argument, and the
  records written to the durable store are an explicit part of the result.
* Wall-clock time advances only through the explicit `time.sleep` calls of the
  source; the duration of an individual HTTP request or AWS call is treated as
  negligible (this is also the accounting the spec uses for its timing bounds).
* Unbounded `while True` loops are driven by the finite observation trace (or
  explicit fuel); a run whose trace is exhausted before the loop exits is
  mapped to `Option.none`, and theorems quantify over traces long enough for
  the loop to settle.
* Python exceptions are modelled as explicit outcomes: a `try/except` boundary
  becomes a case split on an injected fault flag, and a raised `ZeroDivisionError`
  becomes a `none` result.
-/

/-- Status field of a deployment record, as written by `deploy.py` `main`:
`'success'`, `'failed'` or `'error'`. -/
inductive Status where
  | success
  | failed
  | error
deriving DecidableEq, Repr

/-- One record written by `DeploymentManager.create_deployment_record`:
`{timestamp, environment, version, image, status}`. Timestamps are modelled
as naturals; ISO-8601 timestamp strings compare lexicographically exactly as
the instants they denote compare, so `Nat` order is faithful. -/
structure DeploymentRecord where
  timestamp : Nat
  environment : String
  version : String
  image : String
  status : Status
deriving DecidableEq, Repr

/-- One record written by `RollbackManager.record_rollback`:
`{timestamp, environment, action, target_version, target_image}`. -/
structure RollbackRecord where
  timestamp : Nat
  environment : String
  action : String
  targetVersion : String
  targetImage : String
deriving DecidableEq, Repr

/-- Status of an instance refresh as reported by
`describe_instance_refreshes`. -/
inductive RefreshStatus where
  | Pending
  | InProgress
  | Successful
  | Failed
  | Cancelled
deriving DecidableEq, Repr

/-! ### The durable store (S3) -/

/-- S3 `put_object` semantics on a bucket modelled as an association list from
object key (the ISO timestamp of the record, modelled as `Nat`) to stored
record: an unconditional write that replaces any object already stored under
the key, and otherwise adds a new object. This is the operation
`create_deployment_record` performs; S3 has no compare-and-swap or
no-overwrite mode in the call the source makes. -/
def put_object (bucket : List (Nat × DeploymentRecord)) (key : Nat)
    (r : DeploymentRecord) : List (Nat × DeploymentRecord) :=
  if bucket.any (fun e => e.1 == key) then
    bucket.map (fun e => if e.1 == key then (key, r) else e)
  else
    bucket ++ [(key, r)]

/-- S3 `get_object`: the record stored under `key`, if any. -/
def get_object (bucket : List (Nat × DeploymentRecord)) (key : Nat) :
    Option DeploymentRecord :=
  (bucket.find? (fun e => e.1 == key)).map (fun e => e.2)

/-- `DeploymentManager.create_deployment_record`: builds the record (the same
`datetime.now()` instant is used for the object key and the body timestamp)
and `put_object`s it into the `deployments/` prefix of the bucket. -/
def create_deployment_record (bucket : List (Nat × DeploymentRecord))
    (env : String) (now : Nat) (version image : String) (status : Status) :
    List (Nat × DeploymentRecord) :=
  put_object bucket now ⟨now, env, version, image, status⟩

/-! ### Deployment history (rollback.py) -/

/-- Insertion step of a stable descending sort on the `timestamp` field,
modelling Python's `sorted(objects, key=lambda x: x.LastModified,
reverse=True)`; for these objects `LastModified` is the write instant, which
equals the timestamp embedded in the key. -/
def insertByTimestampDesc (r : DeploymentRecord) :
    List DeploymentRecord → List DeploymentRecord
  | [] => [r]
  | x :: rest =>
    if x.timestamp ≤ r.timestamp then r :: x :: rest
    else x :: insertByTimestampDesc r rest

/-- Stable sort, newest first, on the `timestamp` field. -/
def sortByTimestampDesc : List DeploymentRecord → List DeploymentRecord
  | [] => []
  | x :: rest => insertByTimestampDesc x (sortByTimestampDesc rest)

/-- `RollbackManager.get_deployment_history`: `list_objects_v2(Bucket, Prefix,
MaxKeys=limit)` followed by a newest-first sort of the listed window.

The bucket argument is the stored objects in ascending key order, which is the
order `list_objects_v2` returns keys in (S3 lists keys in ascending UTF-8
order, and the keys here embed ISO-8601 timestamps, so ascending key order is
oldest first — which is also why the source re-sorts the listed objects
itself). `MaxKeys=limit` therefore truncates the listing to the `limit`
OLDEST objects; the sort then orders that window newest first. -/
def get_deployment_history (bucket : List DeploymentRecord) (limit : Nat) :
    List DeploymentRecord :=
  sortByTimestampDesc (bucket.take limit)

/-- The scan loop of `find_previous_successful_deployment`: first record in
the list whose `status` field is `'success'`. -/
def findFirstSuccess : List DeploymentRecord → Option DeploymentRecord
  | [] => none
  | d :: rest =>
    if d.status = Status.success then some d else findFirstSuccess rest

/-- `RollbackManager.find_previous_successful_deployment`: scan
`get_deployment_history(limit=20)` in order and return the first record with
status `'success'`, or `None` if there is none. -/
def find_previous_successful_deployment (bucket : List DeploymentRecord) :
    Option DeploymentRecord :=
  findFirstSuccess (get_deployment_history bucket 20)

/-! ### Instance-refresh monitoring -/

/-- The `monitor_refresh` loop shared verbatim (up to log messages) by
`DeploymentManager.monitor_refresh` and `RollbackManager.monitor_refresh`.
Each element of the trace is one `describe_instance_refreshes` response:
`none` models an empty `InstanceRefreshes` list (the refresh id was not
found), `some s` a response carrying status `s`. The source returns `True`
on `Successful`, `False` both when the refresh id is missing and on a
`Cancelled`/`Failed` terminal status, and otherwise sleeps 30 s and polls
again; `Option.none` here means the finite trace ended before the loop did. -/
def monitor_refresh : List (Option RefreshStatus) → Option Bool
  | [] => none
  | poll :: rest =>
    match poll with
    | none => some false
    | some RefreshStatus.Successful => some true
    | some RefreshStatus.Failed => some false
    | some RefreshStatus.Cancelled => some false
    | some _ => monitor_refresh rest

/-! ### Deploy orchestration (deploy.py) -/

/-- Attempt loop of `DeploymentManager.verify_deployment`: up to 20 polls of
`describe_target_health`; `polls j` is the list of per-target health-state
strings observed at attempt `j`. A poll succeeds only if every target is
`'healthy'` (healthy count equals total) and the poll saw more than zero
targets; after 20 unsuccessful attempts the result is `False`. -/
def verifyAttempts (polls : Nat → List String) : Nat → Nat → Bool
  | 0, _ => false
  | n + 1, j =>
    let states := polls j
    let total := states.length
    let healthy := (states.filter (fun s => s == "healthy")).length
    if healthy = total ∧ 0 < total then true
    else verifyAttempts polls n (j + 1)

/-- `DeploymentManager.verify_deployment` (`max_attempts = 20`). -/
def verify_deployment (polls : Nat → List String) : Bool :=
  verifyAttempts polls 20 0

/-- `DeploymentManager.rolling_deployment`: `update_launch_template` (which
returns `False` when `describe_auto_scaling_groups` does not find the ASG,
modelled by `asgExists`), then `start_instance_refresh`, then
`monitor_refresh`. It never calls `verify_deployment`. -/
def rolling_deployment (asgExists : Bool)
    (refreshPolls : List (Option RefreshStatus)) : Option Bool :=
  if asgExists then monitor_refresh refreshPolls else some false

/-- `main` of `deploy.py`. Result: `some (exitCode, recordsWritten)` where
`recordsWritten` lists, in order, the records passed to
`create_deployment_record` during the run. `fault` models an unexpected
exception raised inside the `try` block (the `except` handler writes one
`'error'` record and exits 1). `targetHealthPolls` is the observable
target-group health during the run; the source never queries it —
`verify_deployment` has no caller — so the result does not depend on it. -/
def deploy_main (env version image : String) (now : Nat) (asgExists : Bool)
    (refreshPolls : List (Option RefreshStatus))
    (targetHealthPolls : Nat → List String) (fault : Bool) :
    Option (Nat × List DeploymentRecord) :=
  if fault then some (1, [⟨now, env, version, image, Status.error⟩])
  else
    match rolling_deployment asgExists refreshPolls with
    | none => none
    | some true => some (0, [⟨now, env, version, image, Status.success⟩])
    | some false => some (1, [⟨now, env, version, image, Status.failed⟩])

/-! ### Rollback orchestration (rollback.py) -/

/-- Substring test at the head of the haystack (character-by-character). -/
def matchesAt : List Char → List Char → Bool
  | [], _ => true
  | _ :: _, [] => false
  | p :: ps, h :: hs => p == h && matchesAt ps hs

/-- Substring occurrence anywhere in the haystack. -/
def occursIn (pat : List Char) : List Char → Bool
  | [] => matchesAt pat []
  | h :: t => matchesAt pat (h :: t) || occursIn pat t

/-- Python's `pat in hay` for strings: substring containment. -/
def strContains (hay pat : String) : Bool :=
  occursIn pat.toList hay.toList

/-- `RollbackManager.find_matching_launch_template`: first launch-template
version (as a `(VersionNumber, UserData)` pair) whose user data contains the
target image as a substring. -/
def find_matching_launch_template (versions : List (Nat × String))
    (targetImage : String) : Option Nat :=
  match versions with
  | [] => none
  | (n, ud) :: rest =>
    if strContains ud targetImage then some n
    else find_matching_launch_template rest targetImage

/-- Observable outcome of one `rollback_to_version` run: whether it returned
`True`, which launch-template version the ASG was pointed at (if the run got
that far), and the rollback records written. -/
structure RollbackResult where
  success : Bool
  pointedVersion : Option Nat
  records : List RollbackRecord
deriving DecidableEq, Repr

/-- Launch-template version to point the ASG at: the first existing version
whose user data contains the target image, else the fresh version created by
`create_rollback_version` (its version number is `createdVersion`). -/
def resolveLtVersion (ltVersions : List (Nat × String)) (targetImage : String)
    (createdVersion : Nat) : Nat :=
  match find_matching_launch_template ltVersions targetImage with
  | some n => n
  | none => createdVersion

/-- Target `(version, image)` used by `rollback_to_version`: the explicit
arguments when given, otherwise the latest successful record of the scanned
history window (`None` when that lookup fails). -/
def resolveRollbackTarget (targetVersion targetImage : Option String)
    (bucket : List DeploymentRecord) : Option (String × String) :=
  if targetVersion.isNone && targetImage.isNone then
    match find_previous_successful_deployment bucket with
    | none => none
    | some d => some (d.version, d.image)
  else some (targetVersion.getD "", targetImage.getD "")

/-- `RollbackManager.rollback_to_version`. When neither an explicit version
nor an explicit image is given it resolves the target from
`find_previous_successful_deployment` (returning `False` with no record when
that fails); it then looks the image up among the launch-template versions
(`createdVersion` is the version number `create_rollback_version` returns
when no existing version matches), updates the ASG, starts a refresh and
monitors it. A rollback record is written only on refresh success. Mixed
explicit arguments (exactly one of version/image) are represented by `getD`
defaults and are not used by any theorem below: on such input the source
would raise a `TypeError` inside the substring check. `Option.none` means the
refresh-poll trace was exhausted. -/
def rollback_to_version (env : String) (now : Nat)
    (targetVersion targetImage : Option String)
    (bucket : List DeploymentRecord) (asgExists : Bool)
    (ltVersions : List (Nat × String)) (createdVersion : Nat)
    (refreshPolls : List (Option RefreshStatus)) : Option RollbackResult :=
  match resolveRollbackTarget targetVersion targetImage bucket with
  | none => some ⟨false, none, []⟩
  | some (tv, ti) =>
    if asgExists then
      match monitor_refresh refreshPolls with
      | none => none
      | some true =>
        some ⟨true, some (resolveLtVersion ltVersions ti createdVersion),
          [⟨now, env, "rollback", tv, ti⟩]⟩
      | some false =>
        some ⟨false, some (resolveLtVersion ltVersions ti createdVersion), []⟩
    else some ⟨false, none, []⟩

/-- `main` of `rollback.py`: `some (exitCode, recordsWritten)`. The `except`
branch (modelled by `fault`) logs and exits 1 without writing any record. -/
def rollback_main (env : String) (now : Nat)
    (targetVersion targetImage : Option String)
    (bucket : List DeploymentRecord) (asgExists : Bool)
    (ltVersions : List (Nat × String)) (createdVersion : Nat)
    (refreshPolls : List (Option RefreshStatus)) (fault : Bool) :
    Option (Nat × List RollbackRecord) :=
  if fault then some (1, [])
  else
    match rollback_to_version env now targetVersion targetImage bucket
        asgExists ltVersions createdVersion refreshPolls with
    | none => none
    | some res => some ((if res.success then 0 else 1), res.records)

/-! ### Health checking (health_check.py) -/

/-- Structured health payload (`response.json()` result), with the fields the
boot-time health endpoint reports. The checker only passes it through. -/
structure HealthData where
  status : String
  timestamp : String
  uptime : Nat
  environment : String
  version : String
deriving DecidableEq, Repr

/-- One observed response to `requests.get(url, timeout=5)`:
`transportError` models a raised `requests.exceptions.RequestException`
(connection error, timeout, ...); `http code body` a response with the given
status code whose body parses to `some` structured data or fails to parse
(`none`). -/
inductive HealthResponse where
  | transportError
  | http (statusCode : Nat) (parsedBody : Option HealthData)
deriving DecidableEq, Repr

/-- `HealthChecker.check_health`. A transport failure is caught by the
`except requests.exceptions.RequestException` clause and yields
`(False, None)`; a non-200 status yields `(False, None)` without touching the
body; a 200 whose body fails to parse raises
`requests.exceptions.JSONDecodeError` from `response.json()`, which is a
`RequestException` subclass (requests ≥ 2.27) and is caught by the same
clause, yielding `(False, None)`; a 200 with a parsed body yields
`(True, data)`. -/
def check_health : HealthResponse → Bool × Option HealthData
  | HealthResponse.transportError => (false, none)
  | HealthResponse.http code body =>
    if code = 200 then
      match body with
      | some data => (true, some data)
      | none => (false, none)
    else (false, none)

/-- `HealthChecker.wait_for_healthy` over a trace of responses. `elapsed` is
the wall clock at the top of the loop; the source checks
`elapsed > self.timeout` first (before any further sleeping), returns `True`
on a healthy check, and otherwise sleeps `interval` and loops. Only the
sleeps advance the modelled clock. The result pairs the returned boolean with
the elapsed time at return; `Option.none` means the trace ran out while the
loop would still be polling. -/
def wait_for_healthy (timeout interval : Nat) :
    List HealthResponse → Nat → Option (Bool × Nat)
  | [], elapsed =>
    if timeout < elapsed then some (false, elapsed) else none
  | r :: rest, elapsed =>
    if timeout < elapsed then some (false, elapsed)
    else if (check_health r).1 then some (true, elapsed)
    else wait_for_healthy timeout interval rest (elapsed + interval)

/-- Loop of `HealthChecker.continuous_monitoring`: while the elapsed clock
(`j * interval` after `j` iterations, each iteration ending in a
`sleep(interval)`) is below `duration`, run one check and count it (and count
it again among the failures if unhealthy). `checks j` tells whether the check
of iteration `j` came back healthy. `fuel` bounds the unrolling of the
source's `while` loop; `none` is returned only if fuel runs out while the
loop would still be running, and theorems supply sufficient fuel. -/
def monitorLoop (interval : Nat) (duration : Int) (checks : Nat → Bool) :
    Nat → Nat → Nat → Nat → Option (Nat × Nat)
  | 0, j, count, failed =>
    if ((j * interval : Nat) : Int) < duration then none
    else some (count, failed)
  | fuel + 1, j, count, failed =>
    if ((j * interval : Nat) : Int) < duration then
      monitorLoop interval duration checks fuel (j + 1) (count + 1)
        (if checks j then failed else failed + 1)
    else some (count, failed)

/-- `HealthChecker.continuous_monitoring`. After the loop the source computes
`success_rate = ((check_count - failed_checks) / check_count) * 100` and
returns `success_rate >= 95`. A run with zero completed checks divides by
zero, so the function raises `ZeroDivisionError` instead of returning —
modelled as the inner `none`. Python's float arithmetic is modelled as exact
rational arithmetic. The outer `none` is fuel exhaustion only. -/
def continuous_monitoring (interval : Nat) (duration : Int)
    (checks : Nat → Bool) (fuel : Nat) : Option (Option Bool) :=
  match monitorLoop interval duration checks fuel 0 0 0 with
  | none => none
  | some (count, failed) =>
    if count = 0 then some none
    else
      some (some (decide
        ((95 : ℚ) ≤ ((count : ℚ) - (failed : ℚ)) / (count : ℚ) * 100)))

/-! ### Helper lemmas -/

/-- A record found by the scan loop has status `'success'`. -/
theorem findFirstSuccess_status :
    ∀ (l : List DeploymentRecord) (r : DeploymentRecord),
      findFirstSuccess l = some r → r.status = Status.success := by
  intro l
  induction l with
  | nil => intro r h; simp [findFirstSuccess] at h
  | cons d rest ih =>
    intro r h
    by_cases hd : d.status = Status.success
    · rw [findFirstSuccess, if_pos hd] at h
      cases h
      exact hd
    · rw [findFirstSuccess, if_neg hd] at h
      exact ih r h

/-- In the overwrite branch of `put_object`, the entry stored under the key
after the map is the new record. -/
theorem find_after_replace (key : Nat) (r : DeploymentRecord) :
    ∀ b : List (Nat × DeploymentRecord),
      b.any (fun e => e.1 == key) = true →
      (b.map (fun e => if e.1 == key then (key, r) else e)).find?
          (fun e => e.1 == key) = some (key, r) := by
  intro b
  induction b with
  | nil => intro h; simp at h
  | cons a t ih =>
    intro h
    by_cases ha : (a.1 == key) = true
    · rw [List.map_cons, if_pos ha]
      exact List.find?_cons_of_pos _ (by simp)
    · have ha' : (a.1 == key) = false := by simpa using ha
      have ht : t.any (fun e => e.1 == key) = true := by
        rw [List.any_cons, ha'] at h
        simpa using h
      rw [List.map_cons, if_neg (by simp [ha'])]
      rw [List.find?_cons_of_neg _ (by simp [ha'])]
      exact ih ht

/-- In the fresh-key branch of `put_object`, the appended entry is found. -/
theorem find_after_append (key : Nat) (r : DeploymentRecord) :
    ∀ b : List (Nat × DeploymentRecord),
      b.any (fun e => e.1 == key) = false →
      (b ++ [(key, r)]).find? (fun e => e.1 == key) = some (key, r) := by
  intro b
  induction b with
  | nil => intro _; exact List.find?_cons_of_pos _ (by simp)
  | cons a t ih =>
    intro h
    rw [List.any_cons] at h
    have ha : (a.1 == key) = false := by
      cases hx : (a.1 == key) <;> simp [hx] at h ⊢
    have ht : t.any (fun e => e.1 == key) = false := by
      cases hx : t.any (fun e => e.1 == key) <;> simp [hx, ha] at h ⊢
    rw [List.cons_append, List.find?_cons_of_neg _ (by simp [ha])]
    exact ih ht

/-- After a `put_object`, the written record is what `get_object` returns for
that key. -/
theorem get_put (bucket : List (Nat × DeploymentRecord)) (key : Nat)
    (r : DeploymentRecord) :
    get_object (put_object bucket key r) key = some r := by
  rw [put_object]
  by_cases h : bucket.any (fun e => e.1 == key) = true
  · rw [if_pos h, get_object, find_after_replace key r bucket h]
    rfl
  · have h' : bucket.any (fun e => e.1 == key) = false := by
      cases hx : bucket.any (fun e => e.1 == key) with
      | true => exact absurd hx h
      | false => rfl
    rw [if_neg h, get_object, find_after_append key r bucket h']
    rfl

/-! ### Claim theorems -/

/-- Claim C1 (code bug evidence): at the failing input — the ASG exists, the
rolling refresh reaches terminal status `Successful`, and the target group
reports zero registered targets at every poll — `deploy.py`'s `main` exits 0
and writes a `success` record for every possible fleet-health trace, because
`verify_deployment` has no caller; yet the health gate itself, evaluated on
that zero-target fleet, fails. So success is reported without the post-refresh
fleet health verification being invoked or succeeding. -/
theorem c1_no_health_gate (healthPolls : Nat → List String) :
    deploy_main "production" "1.0" "app:2.0" 0 true
        [some RefreshStatus.Successful] healthPolls false =
      some (0, [⟨0, "production", "1.0", "app:2.0", Status.success⟩]) ∧
    verify_deployment (fun _ => []) = false :=
  ⟨rfl, rfl⟩

/-- Claim C3 failing input: a history of 21 records with ascending timestamps
0–20, where the 20 oldest are `failed` and the newest (timestamp 20) is the
only `success`. -/
def c3Bucket : List DeploymentRecord :=
  (List.range 20).map
    (fun t => ⟨t, "production", toString t, "app:old", Status.failed⟩) ++
  [⟨20, "production", "20", "app:new", Status.success⟩]

/-- Claim C3 (code bug evidence): the history holds a success record and it is
the newest record of all, yet `find_previous_successful_deployment` returns
`None`: `list_objects_v2(MaxKeys=20)` returns the 20 lexicographically first
(i.e. oldest) keys, so the scanned window is the oldest 20 records — all
`failed` — and the newest success is never seen. -/
theorem c3_code_bug :
    c3Bucket.getLast? =
      some ⟨20, "production", "20", "app:new", Status.success⟩ ∧
    (∀ r ∈ c3Bucket, r.timestamp ≤ 20) ∧
    find_previous_successful_deployment c3Bucket = none := by
  refine ⟨by decide, by decide, by decide⟩

/-- Claim C4 counterexample: a poll on which the refresh id has disappeared
produces exactly the same observable result as a poll reporting terminal
status `Failed` — `monitor_refresh` returns `False` in both cases, so the
caller cannot distinguish a vanished refresh from a normal failed outcome. -/
theorem c4_counterexample :
    monitor_refresh [none] = monitor_refresh [some RefreshStatus.Failed] ∧
    monitor_refresh [none] = some false := by
  decide

/-- Claim C4 (amended): if a poll returns no refresh for the handle's id,
`monitor_refresh` immediately returns `False` — the very value it returns for
a `Failed` or `Cancelled` terminal status (only the log message differs), so
the not-found case is not distinguishable by the caller. -/
theorem c4_amended (rest : List (Option RefreshStatus)) :
    monitor_refresh (none :: rest) = some false ∧
    monitor_refresh (some RefreshStatus.Failed :: rest) = some false ∧
    monitor_refresh (some RefreshStatus.Cancelled :: rest) = some false :=
  ⟨rfl, rfl, rfl⟩

/-- Claim C6 counterexample: two `create_deployment_record` calls sharing
timestamp key 5 but carrying different records leave the second record stored
under the key — the existing record is replaced by a different one, so the
second call is neither rejected nor deduplicated. -/
theorem c6_counterexample :
    get_object
        (create_deployment_record
          (create_deployment_record [] "production" 5 "1.0" "app:1.0"
            Status.success)
          "production" 5 "2.0" "app:2.0" Status.failed) 5 =
      some ⟨5, "production", "2.0", "app:2.0", Status.failed⟩ ∧
    (⟨5, "production", "2.0", "app:2.0", Status.failed⟩ : DeploymentRecord) ≠
      ⟨5, "production", "1.0", "app:1.0", Status.success⟩ := by
  refine ⟨by decide, by decide⟩

/-- Claim C6 (amended): `append` with an already-used timestamp key is an
unconditional overwrite. After two appends under the same key the store holds
the second record under that key (last-writer-wins); nothing rejects or
deduplicates the second call. -/
theorem c6_amended (bucket : List (Nat × DeploymentRecord)) (key : Nat)
    (r₁ r₂ : DeploymentRecord) :
    get_object (put_object (put_object bucket key r₁) key r₂) key = some r₂ :=
  get_put (put_object bucket key r₁) key r₂

/-- Claim C9: whenever the history-based rollback target resolution
(`find_previous_successful_deployment`, used by `rollback_to_version` when no
explicit version or image is given) returns a record, that record's status is
`success`. -/
theorem c9_thm (bucket : List DeploymentRecord) (r : DeploymentRecord)
    (h : find_previous_successful_deployment bucket = some r) :
    r.status = Status.success :=
  findFirstSuccess_status _ r h

/-- Record used to witness claim C9. -/
def c9Rec : DeploymentRecord :=
  ⟨3, "production", "2.0", "app:2.0", Status.success⟩

/-- Witness for claim C9: on a one-record history holding a success record,
the resolution returns it and its status is `success`. -/
theorem c9_witness : c9Rec.status = Status.success :=
  c9_thm [c9Rec] c9Rec rfl

/-- Claim C5: any single-poll failure — a transport failure, a non-success
status code, or a 200 whose body fails to parse as structured health data —
is classified by `check_health` as not yet healthy (`(False, None)`), and
while the deadline has not passed, `wait_for_healthy` reacts to such a
response by retrying after one interval; the response neither terminates the
loop nor escapes as an exception (`check_health` catches the raised
`RequestException`, including the JSON-decode error). -/
theorem c5_thm (timeout interval elapsed : Nat) (r : HealthResponse)
    (rest : List HealthResponse)
    (hbad : r = HealthResponse.transportError ∨
      ∃ code body, r = HealthResponse.http code body ∧
        (code ≠ 200 ∨ body = none)) :
    check_health r = (false, none) ∧
    (elapsed ≤ timeout →
      wait_for_healthy timeout interval (r :: rest) elapsed =
        wait_for_healthy timeout interval rest (elapsed + interval)) := by
  have hc : check_health r = (false, none) := by
    rcases hbad with h | ⟨code, body, hr, hcb⟩
    · rw [h]; rfl
    · subst hr
      cases body with
      | none =>
        by_cases hcode : code = 200 <;> simp [check_health, hcode]
      | some data =>
        rcases hcb with hcode | hbody
        · simp [check_health, hcode]
        · cases hbody
  refine ⟨hc, fun hle => ?_⟩
  rw [wait_for_healthy, if_neg (by omega), hc]
  rfl

/-- Witness for claim C5 at the concrete response `http 500 none` with
`timeout = 10`, `interval = 2`, `elapsed = 0`. -/
theorem c5_witness :
    check_health (HealthResponse.http 500 none) = (false, none) ∧
    (0 ≤ 10 →
      wait_for_healthy 10 2 [HealthResponse.http 500 none] 0 =
        wait_for_healthy 10 2 [] (0 + 2)) :=
  c5_thm 10 2 0 (HealthResponse.http 500 none) []
    (Or.inr ⟨500, none, rfl, Or.inl (by decide)⟩)

/-- Generalized timeout bound for `wait_for_healthy`: starting below
`timeout + interval` on an all-unhealthy trace long enough to cover the
timeout window, the loop returns the timeout failure with an elapsed time of
at most `timeout + interval`. -/
theorem wait_timeout_general (timeout interval : Nat) :
    ∀ (resps : List HealthResponse) (elapsed : Nat),
      (∀ r ∈ resps, (check_health r).1 = false) →
      elapsed ≤ timeout + interval →
      timeout < elapsed + interval * resps.length →
      ∃ e, wait_for_healthy timeout interval resps elapsed =
            some (false, e) ∧ e ≤ timeout + interval := by
  intro resps
  induction resps with
  | nil =>
    intro elapsed _ hinv hcov
    simp only [List.length_nil, Nat.mul_zero, Nat.add_zero] at hcov
    exact ⟨elapsed, by rw [wait_for_healthy, if_pos hcov], hinv⟩
  | cons r rest ih =>
    intro elapsed hall hinv hcov
    by_cases hto : timeout < elapsed
    · exact ⟨elapsed, by rw [wait_for_healthy, if_pos hto], hinv⟩
    · have hr : (check_health r).1 = false := hall r (by simp)
      have hstep :
          wait_for_healthy timeout interval (r :: rest) elapsed =
            wait_for_healthy timeout interval rest (elapsed + interval) := by
        rw [wait_for_healthy, if_neg hto, hr]
        rfl
      have hall' : ∀ x ∈ rest, (check_health x).1 = false :=
        fun x hx => hall x (by simp [hx])
      have hinv' : elapsed + interval ≤ timeout + interval := by omega
      have hcov' : timeout < (elapsed + interval) + interval * rest.length := by
        simp only [List.length_cons] at hcov
        have : interval * (rest.length + 1) = interval * rest.length + interval := by ring
        omega
      rcases ih (elapsed + interval) hall' hinv' hcov' with ⟨e, he, hle⟩
      exact ⟨e, by rw [hstep]; exact he, hle⟩

/-- Claim C7: on a response trace that is unhealthy at every attempt and long
enough to cover the whole timeout window, `wait_for_healthy` terminates with
the timeout failure, and the elapsed time at termination is at most
`timeout + interval` — the deadline check happens at the top of the loop,
before the sleep for the next interval. -/
theorem c7_thm (timeout interval : Nat) (resps : List HealthResponse)
    (hall : ∀ r ∈ resps, (check_health r).1 = false)
    (hcov : timeout < interval * resps.length) :
    ∃ e, wait_for_healthy timeout interval resps 0 = some (false, e) ∧
      e ≤ timeout + interval :=
  wait_timeout_general timeout interval resps 0 hall (by omega) (by omega)

/-- Witness for claim C7: an all-unhealthy two-response trace with
`timeout = 5` and `interval = 3` times out with elapsed time at most 8. -/
theorem c7_witness :
    ∃ e, wait_for_healthy 5 3
        [HealthResponse.transportError, HealthResponse.transportError] 0 =
      some (false, e) ∧ e ≤ 5 + 3 :=
  c7_thm 5 3 [HealthResponse.transportError, HealthResponse.transportError]
    (by decide) (by decide)

/-- The attempt loop of `verify_deployment` returns `True` only if some
attempt within its budget observed a fully healthy, non-empty target set. -/
theorem verifyAttempts_spec (polls : Nat → List String) :
    ∀ (n j : Nat), verifyAttempts polls n j = true →
      ∃ k, j ≤ k ∧ k < j + n ∧
        ((polls k).filter (fun s => s == "healthy")).length =
          (polls k).length ∧
        0 < (polls k).length := by
  intro n
  induction n with
  | zero => intro j h; simp [verifyAttempts] at h
  | succ m ih =>
    intro j h
    rw [verifyAttempts] at h
    by_cases hc :
        ((polls j).filter (fun s => s == "healthy")).length =
            (polls j).length ∧ 0 < (polls j).length
    · exact ⟨j, Nat.le_refl j, by omega, hc.1, hc.2⟩
    · rw [if_neg hc] at h
      rcases ih (j + 1) h with ⟨k, hk1, hk2, hk3, hk4⟩
      exact ⟨k, by omega, by omega, hk3, hk4⟩

/-- On a trace where every poll observes zero targets, the attempt loop never
succeeds. -/
theorem verifyAttempts_empty (polls : Nat → List String)
    (hz : ∀ i, polls i = []) :
    ∀ (n j : Nat), verifyAttempts polls n j = false := by
  intro n
  induction n with
  | zero => intro j; rfl
  | succ m ih =>
    intro j
    rw [verifyAttempts]
    rw [if_neg (by simp [hz j])]
    exact ih (j + 1)

/-- Claim C8: `verify_deployment` returns success only if one of its at most
20 polls observed a healthy-target count equal to the total target count with
the total strictly positive; and on a run observing zero total targets at
every poll it never returns success. -/
theorem c8_thm (polls : Nat → List String) :
    (verify_deployment polls = true →
      ∃ k, k < 20 ∧
        ((polls k).filter (fun s => s == "healthy")).length =
          (polls k).length ∧
        0 < (polls k).length) ∧
    ((∀ i, polls i = []) → verify_deployment polls = false) := by
  constructor
  · intro h
    rcases verifyAttempts_spec polls 20 0 h with ⟨k, _, hk2, hk3, hk4⟩
    exact ⟨k, by omega, hk3, hk4⟩
  · intro hz
    exact verifyAttempts_empty polls hz 20 0

/-- Witness for claim C8: a run observing one healthy target at every poll
succeeds on a poll with full health, and a run observing zero targets at
every poll fails. -/
theorem c8_witness :
    (∃ k, k < 20 ∧
      ((((fun _ => ["healthy"]) : Nat → List String) k).filter
          (fun s => s == "healthy")).length =
        (((fun _ => ["healthy"]) : Nat → List String) k).length ∧
      0 < (((fun _ => ["healthy"]) : Nat → List String) k).length) ∧
    verify_deployment (fun _ => []) = false :=
  ⟨(c8_thm (fun _ => ["healthy"])).1 rfl,
   (c8_thm (fun _ => [])).2 (fun _ => rfl)⟩

/-- Any completed `rollback_to_version` run writes one rollback record if it
succeeded and none otherwise. -/
theorem rollback_records_inv (env : String) (now : Nat)
    (targetVersion targetImage : Option String)
    (bucket : List DeploymentRecord) (asgExists : Bool)
    (ltVersions : List (Nat × String)) (createdVersion : Nat)
    (refreshPolls : List (Option RefreshStatus)) (res : RollbackResult)
    (h : rollback_to_version env now targetVersion targetImage bucket
          asgExists ltVersions createdVersion refreshPolls = some res) :
    res.records.length = (if res.success then 1 else 0) := by
  rw [rollback_to_version] at h
  split at h
  · cases h
    rfl
  · split at h
    · split at h
      · exact absurd h (by simp)
      · cases h
        rfl
      · cases h
        rfl
    · cases h
      rfl

/-- Claim C2 counterexample: a rollback attempt with an explicit target whose
instance refresh terminates `Failed` completes with exit code 1 and writes
zero records — not exactly one. -/
theorem c2_counterexample :
    rollback_main "production" 0 (some "1.0") (some "app:1.0") [] true
        [(1, "app:1.0")] 7 [some RefreshStatus.Failed] false =
      some (1, []) := by
  decide

/-- Claim C2 (amended): a deploy attempt writes exactly one record whatever
its outcome (success, failed, or error), but a rollback attempt writes one
record only if it succeeds: a rollback whose refresh fails, whose target
resolution fails, or that raises an unexpected fault writes zero records. -/
theorem c2_amended :
    (∀ (env version image : String) (now : Nat) (asgExists : Bool)
        (refreshPolls : List (Option RefreshStatus))
        (healthPolls : Nat → List String) (fault : Bool) (ec : Nat)
        (recs : List DeploymentRecord),
      deploy_main env version image now asgExists refreshPolls healthPolls
          fault = some (ec, recs) →
      recs.length = 1) ∧
    (∀ (env : String) (now : Nat) (targetVersion targetImage : Option String)
        (bucket : List DeploymentRecord) (asgExists : Bool)
        (ltVersions : List (Nat × String)) (createdVersion : Nat)
        (refreshPolls : List (Option RefreshStatus)) (fault : Bool) (ec : Nat)
        (recs : List RollbackRecord),
      rollback_main env now targetVersion targetImage bucket asgExists
          ltVersions createdVersion refreshPolls fault = some (ec, recs) →
      recs.length = (if ec = 0 then 1 else 0)) := by
  constructor
  · intro env version image now asgExists refreshPolls healthPolls fault ec
      recs h
    rw [deploy_main] at h
    split at h
    · cases h
      rfl
    · split at h
      · exact absurd h (by simp)
      · cases h
        rfl
      · cases h
        rfl
  · intro env now targetVersion targetImage bucket asgExists ltVersions
      createdVersion refreshPolls fault ec recs h
    rw [rollback_main] at h
    split at h
    · cases h
      rfl
    · split at h
      · exact absurd h (by simp)
      · rename_i res hres
        cases h
        have hrec := rollback_records_inv env now targetVersion targetImage
          bucket asgExists ltVersions createdVersion refreshPolls res hres
        cases hs : res.success
        · rw [hs, if_neg (by decide)] at hrec
          simp [hs, hrec]
        · rw [hs, if_pos rfl] at hrec
          simp [hs, hrec]

/-- Witness for claim C2 (amended): a successful deploy writes exactly one
record, and a rollback whose refresh fails writes zero records. -/
theorem c2_witness :
    ([(⟨0, "production", "1.0", "app:2.0", Status.success⟩ :
        DeploymentRecord)]).length = 1 ∧
    ([] : List RollbackRecord).length = (if (1 : Nat) = 0 then 1 else 0) :=
  ⟨c2_amended.1 "production" "1.0" "app:2.0" 0 true
      [some RefreshStatus.Successful] (fun _ => []) false 0
      [⟨0, "production", "1.0", "app:2.0", Status.success⟩] rfl,
   c2_amended.2 "production" 0 (some "1.0") (some "app:1.0") [] true [] 7
      [some RefreshStatus.Failed] false 1 [] rfl⟩

/-- Claim C10: for a completed monitoring run, (a) a non-positive duration
means zero checks complete, (b) a run with zero completed checks makes the
success-rate computation divide by zero, so `continuous_monitoring` raises
instead of returning a pass/fail result, and (c) a run with at least one
check returns pass exactly when `(checks - failures) / checks ≥ 95%`. -/
theorem c10_thm (interval : Nat) (duration : Int) (checks : Nat → Bool)
    (fuel count failed : Nat)
    (hrun : monitorLoop interval duration checks fuel 0 0 0 =
      some (count, failed)) :
    (duration ≤ 0 → count = 0 ∧ failed = 0) ∧
    (count = 0 → continuous_monitoring interval duration checks fuel =
      some none) ∧
    (0 < count →
      (continuous_monitoring interval duration checks fuel =
          some (some true) ↔
        (95 : ℚ) / 100 ≤ ((count : ℚ) - (failed : ℚ)) / (count : ℚ))) := by
  have hcm : continuous_monitoring interval duration checks fuel =
      if count = 0 then some none
      else some (some (decide
        ((95 : ℚ) ≤ ((count : ℚ) - (failed : ℚ)) / (count : ℚ) * 100))) := by
    rw [continuous_monitoring, hrun]
  refine ⟨?_, ?_, ?_⟩
  · intro hdle
    have h00 : monitorLoop interval duration checks fuel 0 0 0 =
        some (0, 0) := by
      cases fuel with
      | zero =>
        rw [monitorLoop,
          if_neg (by simp only [Nat.zero_mul, Nat.cast_zero]; omega)]
      | succ m =>
        rw [monitorLoop,
          if_neg (by simp only [Nat.zero_mul, Nat.cast_zero]; omega)]
    rw [h00] at hrun
    injection hrun with h1
    injection h1 with h2 h3
    exact ⟨h2.symm, h3.symm⟩
  · intro hc0
    rw [hcm, if_pos hc0]
  · intro hpos
    have hne : count ≠ 0 := by omega
    rw [hcm, if_neg hne, div_le_iff₀ (by norm_num : (0 : ℚ) < 100)]
    simp only [Option.some.injEq, decide_eq_true_eq]

/-- Witness for claim C10: with `interval = 10`, `duration = 1` and an
all-healthy check stream, exactly one check completes and the run passes. -/
theorem c10_witness :
    ((1 : Int) ≤ 0 → 1 = 0 ∧ 0 = 0) ∧
    (1 = 0 → continuous_monitoring 10 1 (fun _ => true) 5 = some none) ∧
    (0 < 1 →
      (continuous_monitoring 10 1 (fun _ => true) 5 = some (some true) ↔
        (95 : ℚ) / 100 ≤ ((1 : ℚ) - (0 : ℚ)) / (1 : ℚ))) :=
  c10_thm 10 1 (fun _ => true) 5 1 0 rfl
